import Mathlib

/-!
Verification of the ZHS court crawler (zhs_crawler/zhs.py, book_court.py).

The Python source is shallowly embedded: pure computations become Lean
functions, Python exceptions become the Except monad (PyError), the
network and the Selenium driver become explicit environments and emitted
effect lists, and the unbounded polling loop becomes a fuel-indexed
function. String manipulation is modelled on the character list of each
string so that every definition evaluates by kernel reduction.
-/

/-- Python exceptions that the modelled code can raise. ValueError covers
int() conversion failures, tuple-unpack mismatches, strptime failures and
the pandas "truth value of a DataFrame is ambiguous" error; keyError is a
dict lookup miss; fetchError and parseError stand for requests transport
failures and BeautifulSoup structure failures raised while a page is
fetched and scraped. -/
inductive PyError where
  | valueError
  | keyError (k : Int)
  | fetchError
  | parseError
deriving Repr, DecidableEq

/-- The configuration held by the Zhs class (zhs.py, constructor). -/
structure ZhsConfig where
  date : String
  start_hour : Int
  end_hour : Int
  receiver_email : String
  interval : Nat
  book_court : Bool
deriving Repr, DecidableEq

/-- One row of the courts DataFrame built by Zhs.filter_relevant_courts:
columns date, court (after astype(int)), start_time, end_time. -/
structure CourtSlot where
  date : String
  court : Int
  start_time : String
  end_time : String
deriving Repr, DecidableEq

/-- Login credentials read from the environment by BookTennisCourt. -/
structure Creds where
  login_name : String
  login_password : String
deriving Repr, DecidableEq

/-- Scraped output of the HTML stage of Zhs.filter_all_available_courts:
one entry per court sub-table, the court header text paired with the list
of available time-cell texts, in document order. -/
abbrev ScrapedPage := List (String × List String)

/- ## Character-list string utilities -/

/-- Prepend a character to the first part of a split result. -/
def consHead (c : Char) : List (List Char) → List (List Char)
  | [] => [[c]]
  | p :: ps => (c :: p) :: ps

/-- Python str.split(sep) for a single-character separator. -/
def splitChar (sep : Char) : List Char → List (List Char)
  | [] => [[]]
  | c :: rest =>
    if c = sep then [] :: splitChar sep rest else consHead c (splitChar sep rest)

/-- Python str.split on the three-character separator " - ", scanning
left to right. -/
def splitSep3 : List Char → List (List Char)
  | [] => [[]]
  | ' ' :: '-' :: ' ' :: rest => [] :: splitSep3 rest
  | c :: rest => consHead c (splitSep3 rest)

/-- Python tuple unpacking a, b = parts: succeeds only on exactly two
parts, otherwise raises ValueError. -/
def split2sep (parts : List (List Char)) : Except PyError (String × String) :=
  match parts with
  | [a, b] => .ok (String.mk a, String.mk b)
  | _ => .error .valueError

/-- Python: start, end = s.split(" - ") -/
def splitDash2 (s : String) : Except PyError (String × String) :=
  split2sep (splitSep3 s.data)

/-- Python: a, b = s.split(" ") -/
def splitSpace2 (s : String) : Except PyError (String × String) :=
  split2sep (splitChar ' ' s.data)

/-- Decimal value of a digit list, most significant first. -/
def decDigits (l : List Char) : Nat :=
  l.foldl (fun n c => n * 10 + (c.toNat - 48)) 0

/-- Python int(s) on a string: optional surrounding whitespace, optional
sign, then decimal digits; anything else raises (modelled as none). -/
def pyInt (s : String) : Option Int :=
  let t := s.data.dropWhile Char.isWhitespace
  let t := (t.reverse.dropWhile Char.isWhitespace).reverse
  let sd : Int × List Char :=
    match t with
    | '-' :: rest => (-1, rest)
    | '+' :: rest => (1, rest)
    | _ => (1, t)
  if sd.2 ≠ [] ∧ sd.2.all Char.isDigit then
    some (sd.1 * (decDigits sd.2 : Int))
  else none

/-- Python datetime.datetime.strptime(s, "%H:%M").  %H matches one or two
digits up to 23, %M one or two digits up to 59, and the whole string must
be consumed. -/
def parseHM (s : String) : Option (Nat × Nat) :=
  match splitChar ':' s.data with
  | [h, m] =>
    if h ≠ [] ∧ h.length ≤ 2 ∧ h.all Char.isDigit ∧
       m ≠ [] ∧ m.length ≤ 2 ∧ m.all Char.isDigit then
      if decDigits h ≤ 23 ∧ decDigits m ≤ 59 then
        some (decDigits h, decDigits m)
      else none
    else none
  | _ => none

/-- Zero-pad a number to two digits, as strftime %H / %M do. -/
def pad2 (n : Nat) : String := if n < 10 then "0" ++ Nat.repr n else Nat.repr n

/-- Python strftime("%H:%M") on a time with the given hour and minute. -/
def strftimeHM (h m : Nat) : String := pad2 h ++ ":" ++ pad2 m

/- ## urllib.parse.urlencode / quote_plus -/

def hexDigitChars : List Char :=
  ['0', '1', '2', '3', '4', '5', '6', '7', '8', '9', 'A', 'B', 'C', 'D', 'E', 'F']

/-- Two uppercase hex digits of a byte, as urllib percent-escapes use. -/
def byteHex (b : Nat) : String :=
  String.mk [hexDigitChars.getD (b / 16) '0', hexDigitChars.getD (b % 16) '0']

/-- UTF-8 bytes of a character. -/
def utf8Bytes (c : Char) : List Nat :=
  let n := c.toNat
  if n < 128 then [n]
  else if n < 2048 then [192 + n / 64, 128 + n % 64]
  else if n < 65536 then [224 + n / 4096, 128 + (n / 64) % 64, 128 + n % 64]
  else [240 + n / 262144, 128 + (n / 4096) % 64, 128 + (n / 64) % 64, 128 + n % 64]

/-- Characters urllib never escapes: ASCII letters, digits, and _.-~ . -/
def alwaysSafe (c : Char) : Bool :=
  c.isAlpha || c.isDigit || c = '_' || c = '.' || c = '-' || c = '~'

/-- Python urllib.parse.quote_plus: safe characters kept, space becomes a
plus, every other character percent-escaped byte by byte. -/
def quote_plus (s : String) : String :=
  s.data.foldl
    (fun acc c =>
      acc ++
        (if alwaysSafe c then String.mk [c]
         else if c = ' ' then "+"
         else String.join ((utf8Bytes c).map (fun b => "%" ++ byteHex b))))
    ""

/-- Python urllib.parse.urlencode on an ordered mapping. -/
def urlencode (q : List (String × String)) : String :=
  String.intercalate "&" (q.map (fun kv => quote_plus kv.1 ++ "=" ++ quote_plus kv.2))

/-- The base_url attribute set in the Zhs constructor (zhs.py). -/
def BASE_URL : String :=
  "https://ssl.forumedia.eu/zhs-courtbuchung.de/reservations.php?action=showReservations&type_id=1&"

/-- Zhs.build_url: base_url plus urlencode of the date and page query
parameters. -/
def build_url (z : ZhsConfig) (page : Nat) : String :=
  BASE_URL ++ urlencode [("date", z.date), ("page", Nat.repr page)]

/- ## Zhs.filter_all_available_courts, pairing stage -/

/-- A Python for-loop that raises: map a fallible function over a list,
propagating the first exception. -/
def mapME {α β : Type} (f : α → Except PyError β) : List α → Except PyError (List β)
  | [] => .ok []
  | a :: as =>
    match f a with
    | .error e => .error e
    | .ok b =>
      match mapME f as with
      | .error e => .error e
      | .ok bs => .ok (b :: bs)

/-- The inner enumerate loop of Zhs.filter_all_available_courts (zhs.py
lines 123 to 130): every even-indexed scraped label contributes one hour
slot whose start is the label start and whose end is computed with
strptime, plus one hour, strftime; odd-indexed labels are skipped
unexamined. -/
def pair_times : Nat → List String → Except PyError (List String)
  | _, [] => .ok []
  | i, t :: ts =>
    if i % 2 = 0 then
      match splitDash2 t with
      | .error e => .error e
      | .ok (s, _) =>
        match parseHM s with
        | none => .error .valueError
        | some (h, m) =>
          match pair_times (i + 1) ts with
          | .error e => .error e
          | .ok rest => .ok ((s ++ " - " ++ strftimeHM ((h + 1) % 24) m) :: rest)
    else pair_times (i + 1) ts

/-- One iteration of the fixed_times loop: split the court header on a
space keeping the integer part, and pair up the times. -/
def fix_court (kv : String × List String) : Except PyError (String × List String) :=
  match splitSpace2 kv.1 with
  | .error e => .error e
  | .ok (_, court_int) =>
    match pair_times 0 kv.2 with
    | .error e => .error e
    | .ok fixedT => .ok (court_int, fixedT)

/-- Lines 115 to 132 of Zhs.filter_all_available_courts: drop courts with
no available cells, then build the fixed_times mapping by pairing
half-hour labels into hour slots per court. -/
def fix_times (scraped : ScrapedPage) : Except PyError ScrapedPage :=
  mapME fix_court (scraped.filter (fun kv => kv.2.length > 0))

/- ## Zhs.filter_relevant_courts -/

/-- The construct_df loop: one row (court, start, end) per time string of
every court, with start, end = t.split(" - "). -/
def rows_for_court (kv : String × List String) :
    Except PyError (List (String × String × String)) :=
  mapME (fun t =>
    match splitDash2 t with
    | .error e => .error e
    | .ok se => .ok (kv.1, se.1, se.2)) kv.2

/-- All DataFrame rows, in insertion order. -/
def construct_rows (avail : ScrapedPage) :
    Except PyError (List (String × String × String)) :=
  match mapME rows_for_court avail with
  | .error e => .error e
  | .ok rss => .ok rss.flatten

/-- courts_df["court"].astype(int): convert every court key with int(),
raising ValueError on the first bad key, and attach the run date. -/
def astype_courts (date : String) :
    List (String × String × String) → Except PyError (List CourtSlot) :=
  mapME (fun r =>
    match pyInt r.1 with
    | none => .error .valueError
    | some ci => .ok ⟨date, ci, r.2.1, r.2.2⟩)

/-- The hour a time string is given by the filter: int(x[:2]). -/
def hourInt (s : String) : Option Int := pyInt (String.mk (s.data.take 2))

/-- The .loc filtering stage: both hour columns are converted for every
row (as pandas astype does for a whole column), raising ValueError if any
conversion fails, then rows inside the window are kept in order. -/
def loc_filter (sh eh : Int) : List CourtSlot → Except PyError (List CourtSlot)
  | [] => .ok []
  | r :: rs =>
    match hourInt r.start_time, hourInt r.end_time with
    | some a, some b =>
      match loc_filter sh eh rs with
      | .error e => .error e
      | .ok rest => .ok (if sh ≤ a ∧ b ≤ eh then r :: rest else rest)
    | _, _ => .error .valueError

/-- The pure window predicate of the filter: keep a row when its start
hour is at least start_hour and its end hour is at most end_hour. -/
def keepB (sh eh : Int) (r : CourtSlot) : Bool :=
  match hourInt r.start_time, hourInt r.end_time with
  | some a, some b => decide (sh ≤ a ∧ b ≤ eh)
  | _, _ => false

/-- Zhs.filter_relevant_courts: build the rows, convert the court column
to int, and keep the rows matching the requested window. -/
def filter_relevant_courts (z : ZhsConfig) (avail : ScrapedPage) :
    Except PyError (List CourtSlot) :=
  match construct_rows avail with
  | .error e => .error e
  | .ok rows =>
    match astype_courts z.date rows with
    | .error e => .error e
    | .ok slots => loc_filter z.start_hour z.end_hour slots

/- ## Zhs.compose_message -/

/-- Python s.rstrip of newline characters. -/
def rstripNewline (s : String) : String :=
  String.mk (s.data.reverse.dropWhile (fun c => c = '\n')).reverse

/-- Zhs.compose_message.  The Python code tests the truthiness of
booked_court with if booked_court: — when booked_court is a pandas
DataFrame (which it always is on the booking path of run_court_search)
pandas raises ValueError unconditionally, because the truth value of a
DataFrame is ambiguous; only booked_court=None reaches the rest of the
template. -/
def compose_message (z : ZhsConfig) (booked : Option (List CourtSlot))
    (relevant : List CourtSlot) : Except PyError String :=
  match booked with
  | some _ => .error .valueError
  | none =>
    let header :=
      "Dear Roger,\n\n" ++
      "Here is an overview of all available courts on " ++ z.date ++
      " between " ++ toString z.start_hour ++ ":00 and " ++
      toString z.end_hour ++ ":00:\n\n"
    let body := relevant.foldl
      (fun acc r =>
        acc ++ "  -> Court " ++ toString r.court ++ ": " ++ r.start_time ++
          " - " ++ r.end_time ++ "\n")
      header
    .ok (rstripNewline body)

/- ## book_court.py -/

/-- COURT_PAGE_MAPPER from book_court.py: which pager entry holds each
court. -/
def COURT_PAGE_MAPPER : List (Int × Int) :=
  [(2, 2), (3, 2), (4, 2), (5, 2),
   (6, 3), (7, 3), (8, 3), (9, 3), (10, 3), (11, 3), (12, 3), (13, 3),
   (14, 4), (15, 4), (16, 4), (17, 4)]

/-- MAP_COURT_TO_XPATH from book_court.py: the td ordinal of the Buchung
button of each court inside its group row. -/
def MAP_COURT_TO_XPATH : List (Int × Int) :=
  [(2, 1), (3, 2), (4, 3), (5, 4),
   (6, 1), (7, 2), (8, 3), (9, 4), (10, 5), (11, 6), (12, 7), (13, 8),
   (14, 1), (15, 2), (16, 3), (17, 4)]

/-- One abstract Selenium driver action. -/
inductive UiAction where
  | navigate (url : String)
  | findById (id : String)
  | clickById (id : String)
  | sendKeysById (id : String) (text : String)
  | clickByXpath (xpath : String)
  | implicitlyWait (secs : Nat)
  | sleep (secs : Nat)
  | quit
deriving Repr, DecidableEq

/-- The driver actions BookTennisCourt.book_tennis_court performs before
it reads either lookup table: open the page (note the sic
showRevervations typo of the source), log in, dismiss the cookie pop-up
and wait. -/
def loginActions (creds : Creds) (date : String) : List UiAction :=
  [.navigate ("https://ssl.forumedia.eu/zhs-courtbuchung.de/reservations.php?" ++
      "action=showRevervations&type_id=1&date=" ++ date ++ "&page=1"),
   .findById "login_block",
   .clickById "login_block",
   .sendKeysById "login" creds.login_name,
   .sendKeysById "password" creds.login_password,
   .clickByXpath "//*[@id=\"respond1\"]/form/table/tbody/tr/td[1]/input",
   .implicitlyWait 5,
   .clickByXpath "//*[@id=\"button_apply\"]",
   .sleep 3]

/-- Pager xpath, with the COURT_PAGE_MAPPER value spliced in. -/
def pagerXpath (pg : Int) : String :=
  "//*[@id=\"pager-block\"]/div[" ++ toString pg ++ "]/div[2]/a/strong"

/-- Buchung button xpath, with the MAP_COURT_TO_XPATH value spliced in. -/
def confirmXpath (slotIdx : Int) : String :=
  "/html/body/div[5]/article/div/div[4]/div/table/tbody/tr/td[" ++
    toString slotIdx ++ "]/form/div/input"

/-- Checkbox element id for a court at a start time. -/
def checkboxId (court : Int) (start : String) : String :=
  "order_el_" ++ toString court ++ "_" ++ start

/-- BookTennisCourt.book_tennis_court: the ordered driver script.  The
two table lookups happen in the middle of the script (while the pager
xpath and the Buchung xpath are formatted); a missing court number raises
KeyError there, after the earlier actions have already run. -/
def book_tennis_court (creds : Creds) (date : String) (court : Int)
    (start : String) : List UiAction × Except PyError Unit :=
  let pre := loginActions creds date
  match List.lookup court COURT_PAGE_MAPPER with
  | none => (pre, .error (.keyError court))
  | some pg =>
    let pre2 := pre ++
      [UiAction.clickByXpath (pagerXpath pg),
       UiAction.clickById (checkboxId court start)]
    match List.lookup court MAP_COURT_TO_XPATH with
    | none => (pre2, .error (.keyError court))
    | some slotIdx =>
      (pre2 ++
        [UiAction.clickByXpath (confirmXpath slotIdx),
         UiAction.clickByXpath "/html/body/div[5]/article/div/form/div/input",
         UiAction.quit], .ok ())

/- ## Zhs.run_court_search and Zhs.crawl_zhs -/

/-- Observable effects of one program run: page fetches, driver actions,
the sent email body, and sleeps between polling rounds. -/
inductive Effect where
  | fetch (url : String)
  | ui (a : UiAction)
  | email (body : String)
  | sleep (secs : Nat)
deriving Repr, DecidableEq

/-- The per-page loop of Zhs.run_court_search: for each page build the
url, fetch and scrape it (the environment supplies the scraped result or
the exception), pair the times, filter the relevant courts, and
accumulate the rows across pages.  An exception stops the loop at once,
keeping the effects performed so far. -/
def run_pages (z : ZhsConfig) (env : Nat → Except PyError ScrapedPage) :
    List Nat → List Effect × Except PyError (List CourtSlot)
  | [] => ([], .ok [])
  | p :: ps =>
    let eff : List Effect := [.fetch (build_url z p)]
    match env p with
    | .error e => (eff, .error e)
    | .ok scraped =>
      match fix_times scraped with
      | .error e => (eff, .error e)
      | .ok avail =>
        match filter_relevant_courts z avail with
        | .error e => (eff, .error e)
        | .ok rel =>
          match run_pages z env ps with
          | (effs, .error e) => (eff ++ effs, .error e)
          | (effs, .ok rest) => (eff ++ effs, .ok (rel ++ rest))

/-- The aggregate relevant set of one round, pages 2, 3 and 4. -/
def round_relevant (z : ZhsConfig) (env : Nat → Except PyError ScrapedPage) :
    Except PyError (List CourtSlot) :=
  (run_pages z env [2, 3, 4]).2

/-- all_relevant_courts.sample(1): the pandas uniform random pick,
modelled by an externally supplied index reduced modulo the set size. -/
def sample1 (l : List CourtSlot) (pick : Nat) : CourtSlot :=
  l.getD (pick % l.length) ⟨"", 0, "", ""⟩

/-- Zhs.run_court_search: crawl pages 2 to 4, and if any relevant court
exists, book a sampled one when auto-booking is on, then compose and send
the email; returns False after an empty round.  Exceptions raised by any
stage propagate (there is no try/except in the source), keeping the
effects already performed. -/
def run_court_search (z : ZhsConfig) (creds : Creds)
    (env : Nat → Except PyError ScrapedPage) (pick : Nat) :
    List Effect × Except PyError Bool :=
  match run_pages z env [2, 3, 4] with
  | (effs, .error e) => (effs, .error e)
  | (effs, .ok allRel) =>
    if allRel.length ≠ 0 then
      if z.book_court then
        let b := sample1 allRel pick
        match book_tennis_court creds b.date b.court b.start_time with
        | (acts, .error e) => (effs ++ acts.map Effect.ui, .error e)
        | (acts, .ok _) =>
          match compose_message z (some [b]) allRel with
          | .error e => (effs ++ acts.map Effect.ui, .error e)
          | .ok msg => (effs ++ acts.map Effect.ui ++ [Effect.email msg], .ok true)
      else
        match compose_message z none allRel with
        | .error e => (effs, .error e)
        | .ok msg => (effs ++ [Effect.email msg], .ok true)
    else (effs, .ok false)

/-- Outcome of running the polling loop for a bounded number of ticks. -/
inductive LoopOutcome where
  | found
  | stillSearching
  | crashed (e : PyError)
deriving Repr, DecidableEq

/-- Zhs.crawl_zhs, indexed by fuel: run run_court_search once per tick
with that round's environment and sample index; sleep for the configured
interval after an empty round and retry; stop on True; an uncaught
exception ends the process. -/
def crawl_zhs_fuel (z : ZhsConfig) (creds : Creds)
    (envs : Nat → Nat → Except PyError ScrapedPage) (picks : Nat → Nat) :
    Nat → Nat → List Effect × LoopOutcome
  | _, 0 => ([], .stillSearching)
  | round, fuel + 1 =>
    match run_court_search z creds (envs round) (picks round) with
    | (effs, .error e) => (effs, .crashed e)
    | (effs, .ok true) => (effs, .found)
    | (effs, .ok false) =>
      match crawl_zhs_fuel z creds envs picks (round + 1) fuel with
      | (effs2, out) => (effs ++ Effect.sleep z.interval :: effs2, out)

/- ## Example configurations and environments used by concrete theorems -/

def credsEx : Creds := ⟨"roger", "secret"⟩

def zBook : ZhsConfig := ⟨"2021-07-27", 8, 20, "roger@example.com", 60, true⟩

def zNoBook : ZhsConfig := ⟨"2021-07-27", 8, 20, "roger@example.com", 60, false⟩

def env18 : Nat → Except PyError ScrapedPage := fun p =>
  if p = 2 then .ok [("Court 18", ["08:00 - 08:30", "08:30 - 09:00"])] else .ok []

def envEmpty : Nat → Except PyError ScrapedPage := fun _ => .ok []

def envCrash : Nat → Except PyError ScrapedPage := fun _ => .error .fetchError

/- ## Properties of the pairing stage (claim C1) -/

/-- Full characterisation of pair_times: started at an even index it
keeps the even-indexed labels, started at an odd index it keeps the
odd-indexed labels; each kept label contributes its parsed start plus the
computed start-plus-one-hour end. -/
theorem pair_times_spec (ts : List String) : ∀ (i : Nat) (out : List String),
    pair_times i ts = .ok out →
    ((i % 2 = 0 → out.length = (ts.length + 1) / 2 ∧
       ∀ j lbl, ts[2 * j]? = some lbl →
         ∃ s e h m, splitDash2 lbl = .ok (s, e) ∧ parseHM s = some (h, m) ∧
           out[j]? = some (s ++ " - " ++ strftimeHM ((h + 1) % 24) m)) ∧
     (i % 2 = 1 → out.length = ts.length / 2 ∧
       ∀ j lbl, ts[2 * j + 1]? = some lbl →
         ∃ s e h m, splitDash2 lbl = .ok (s, e) ∧ parseHM s = some (h, m) ∧
           out[j]? = some (s ++ " - " ++ strftimeHM ((h + 1) % 24) m))) := by
  induction ts with
  | nil =>
    intro i out h
    simp only [pair_times] at h
    cases h
    refine ⟨fun _ => ⟨by simp, ?_⟩, fun _ => ⟨by simp, ?_⟩⟩ <;>
      · intro j lbl hj; simp at hj
  | cons t ts ih =>
    intro i out h
    rcases Nat.mod_two_eq_zero_or_one i with hi | hi
    · rw [pair_times, if_pos hi] at h
      cases hsp : splitDash2 t with
      | error e => rw [hsp] at h; cases h
      | ok se =>
        obtain ⟨s, e2⟩ := se
        rw [hsp] at h
        simp only at h
        cases hpm : parseHM s with
        | none => rw [hpm] at h; cases h
        | some hm =>
          obtain ⟨hh, mm⟩ := hm
          rw [hpm] at h
          cases hrec : pair_times (i + 1) ts with
          | error e => rw [hrec] at h; cases h
          | ok rest =>
            rw [hrec] at h
            cases h
            have hodd : (i + 1) % 2 = 1 := by omega
            have ihodd := ((ih (i + 1) rest hrec).2) hodd
            constructor
            · intro _
              constructor
              · simp [ihodd.1]; omega
              · intro j lbl hj
                cases j with
                | zero =>
                  simp at hj
                  cases hj
                  exact ⟨s, e2, hh, mm, hsp, hpm, by simp⟩
                | succ j' =>
                  have hj' : ts[2 * j' + 1]? = some lbl := by
                    have : 2 * (j' + 1) = (2 * j' + 1) + 1 := by omega
                    rw [this] at hj
                    simpa using hj
                  obtain ⟨s', e', h', m', hs', hp', ho'⟩ := ihodd.2 j' lbl hj'
                  exact ⟨s', e', h', m', hs', hp', by simpa using ho'⟩
            · intro hcontra; omega
    · rw [pair_times, if_neg (by omega)] at h
      have heven : (i + 1) % 2 = 0 := by omega
      have iheven := ((ih (i + 1) out h).1) heven
      constructor
      · intro hcontra; omega
      · intro _
        constructor
        · simp [iheven.1]
        · intro j lbl hj
          have hj' : ts[2 * j]? = some lbl := by simpa using hj
          obtain ⟨s', e', h', m', hs', hp', ho'⟩ := iheven.2 j lbl hj'
          exact ⟨s', e', h', m', hs', hp', ho'⟩

/-- C1: for a resource whose scraped sequence holds k available half-hour
labels, the pairing stage of Zhs.filter_all_available_courts emits
exactly ceil(k/2) hour slots, one per even-indexed (0-based) label; the
slot start is that label's scraped start time and the slot end is
computed arithmetically as start plus one hour, the scraped end times
being ignored; and for any court header the fixed_times entry of that
resource is exactly this list. -/
theorem c1_reconciler_even_pairing (ts out : List String)
    (h : pair_times 0 ts = .ok out) :
    (out.length = (ts.length + 1) / 2 ∧
     ∀ j lbl, ts[2 * j]? = some lbl →
       ∃ s e hh mm, splitDash2 lbl = .ok (s, e) ∧ parseHM s = some (hh, mm) ∧
         out[j]? = some (s ++ " - " ++ strftimeHM ((hh + 1) % 24) mm)) ∧
    (∀ c res, fix_court (c, ts) = .ok res → res.2 = out) := by
  refine ⟨(pair_times_spec ts 0 out h).1 rfl, ?_⟩
  intro c res hres
  unfold fix_court at hres
  cases hscourt : splitSpace2 c with
  | error e => rw [hscourt] at hres; cases hres
  | ok p =>
    obtain ⟨p1, p2⟩ := p
    rw [hscourt] at hres
    rw [h] at hres
    cases hres
    rfl

/-- Concrete instance of C1: three half-hour labels give ceil(3/2) = 2
hour slots taken from labels 0 and 2, ends recomputed as start plus one
hour. -/
theorem c1_witness :
    pair_times 0 ["08:00 - 08:30", "08:30 - 09:00", "09:00 - 09:30"] =
      .ok ["08:00 - 09:00", "09:00 - 10:00"] ∧
    ((["08:00 - 09:00", "09:00 - 10:00"].length =
        ((["08:00 - 08:30", "08:30 - 09:00", "09:00 - 09:30"] : List String).length + 1) / 2 ∧
      ∀ j lbl, (["08:00 - 08:30", "08:30 - 09:00", "09:00 - 09:30"] : List String)[2 * j]? = some lbl →
        ∃ s e hh mm, splitDash2 lbl = .ok (s, e) ∧ parseHM s = some (hh, mm) ∧
          (["08:00 - 09:00", "09:00 - 10:00"] : List String)[j]? =
            some (s ++ " - " ++ strftimeHM ((hh + 1) % 24) mm)) ∧
     (∀ c res, fix_court (c, ["08:00 - 08:30", "08:30 - 09:00", "09:00 - 09:30"]) = .ok res →
        res.2 = ["08:00 - 09:00", "09:00 - 10:00"])) :=
  ⟨rfl, c1_reconciler_even_pairing _ _ rfl⟩

/- ## Properties of the window filter (claims C2, C6, C10) -/

/-- A successful loc_filter run returns exactly the rows passing the
window predicate, in their original order. -/
theorem loc_filter_ok_eq_filter (sh eh : Int) :
    ∀ (rows out : List CourtSlot), loc_filter sh eh rows = .ok out →
      out = rows.filter (keepB sh eh) := by
  intro rows
  induction rows with
  | nil => intro out h; simp only [loc_filter] at h; cases h; rfl
  | cons r rs ih =>
    intro out h
    rw [loc_filter] at h
    cases hs : hourInt r.start_time with
    | none => rw [hs] at h; cases h
    | some a =>
      rw [hs] at h
      cases he : hourInt r.end_time with
      | none => rw [he] at h; cases h
      | some b =>
        rw [he] at h
        simp only at h
        cases hrec : loc_filter sh eh rs with
        | error e => rw [hrec] at h; cases h
        | ok rest =>
          rw [hrec] at h
          simp only at h
          cases h
          have hrest := ih rest hrec
          by_cases hp : sh ≤ a ∧ b ≤ eh
          · simp only [if_pos hp]
            rw [List.filter_cons_of_pos (by simp [keepB, hs, he, hp])]
            exact congrArg _ hrest
          · simp only [if_neg hp]
            rw [List.filter_cons_of_neg (by simp [keepB, hs, he, hp])]
            exact hrest

/-- Rows that all pass the window predicate pass loc_filter unchanged. -/
theorem loc_filter_all_keep (sh eh : Int) :
    ∀ rows : List CourtSlot, (∀ r ∈ rows, keepB sh eh r = true) →
      loc_filter sh eh rows = .ok rows := by
  intro rows
  induction rows with
  | nil => intro _; rfl
  | cons r rs ih =>
    intro hall
    have hr := hall r (by simp)
    unfold keepB at hr
    cases hs : hourInt r.start_time with
    | none => rw [hs] at hr; cases hr
    | some a =>
      rw [hs] at hr
      cases he : hourInt r.end_time with
      | none => rw [he] at hr; cases hr
      | some b =>
        rw [he] at hr
        simp only [decide_eq_true_eq] at hr
        rw [loc_filter, hs, he, ih (fun x hx => hall x (by simp [hx]))]
        simp [hr]

/-- If any row of the DataFrame has a start or end time whose
two-character fragment does not convert with int(), loc_filter raises
ValueError, whatever the window is and wherever the row sits. -/
theorem loc_filter_bad_row (sh eh : Int) :
    ∀ (rows : List CourtSlot) (r : CourtSlot), r ∈ rows →
      (hourInt r.start_time = none ∨ hourInt r.end_time = none) →
      loc_filter sh eh rows = .error .valueError := by
  intro rows
  induction rows with
  | nil => intro r hr; cases hr
  | cons r' rs ih =>
    intro r hr hbad
    rw [loc_filter]
    rcases List.mem_cons.mp hr with heq | hmem
    · subst heq
      rcases hbad with hb | hb
      · rw [hb]
      · rw [hb]
        cases hourInt r.start_time <;> rfl
    · cases hs : hourInt r'.start_time with
      | none => rfl
      | some a =>
        cases he : hourInt r'.end_time with
        | none => rfl
        | some b =>
          rw [ih r hmem hbad]

/-- Composition helper: when row construction and the court astype both
succeed, filter_relevant_courts is exactly the loc filtering stage on the
built rows. -/
theorem filter_via_loc (z : ZhsConfig) (avail : ScrapedPage)
    (rows : List (String × String × String)) (slots : List CourtSlot)
    (h1 : construct_rows avail = .ok rows)
    (h2 : astype_courts z.date rows = .ok slots) :
    filter_relevant_courts z avail = loc_filter z.start_hour z.end_hour slots := by
  unfold filter_relevant_courts
  rw [h1]
  simp only
  rw [h2]

/-- C2: the Window Filter keeps a slot exactly when its start hour is at
least the requested start hour and its end hour is at most the requested
end hour.  The output of a successful run is literally List.filter of the
pure window predicate over the input rows, so the input is left intact
(the function is pure) and nothing else is added, and there are inputs on
which the result is empty. -/
theorem c2_window_filter :
    (∀ (sh eh : Int) (rows out : List CourtSlot),
      loc_filter sh eh rows = .ok out → out = rows.filter (keepB sh eh)) ∧
    (∀ (z : ZhsConfig) (avail : ScrapedPage) (rows : List (String × String × String))
      (slots : List CourtSlot),
      construct_rows avail = .ok rows → astype_courts z.date rows = .ok slots →
      filter_relevant_courts z avail = loc_filter z.start_hour z.end_hour slots) ∧
    (∃ z : ZhsConfig, ∃ avail : ScrapedPage, filter_relevant_courts z avail = .ok []) :=
  ⟨loc_filter_ok_eq_filter, filter_via_loc, ⟨zNoBook, [], rfl⟩⟩

/-- Concrete instance of C2: a two-row set against window 8 to 20 keeps
the 08:00 to 09:00 row and drops the 20:00 to 21:00 row. -/
theorem c2_witness :
    loc_filter 8 20
      [⟨"2021-07-27", 5, "08:00", "09:00"⟩, ⟨"2021-07-27", 6, "20:00", "21:00"⟩] =
      .ok [⟨"2021-07-27", 5, "08:00", "09:00"⟩] ∧
    ([⟨"2021-07-27", 5, "08:00", "09:00"⟩] : List CourtSlot) =
      List.filter (keepB 8 20)
        [⟨"2021-07-27", 5, "08:00", "09:00"⟩, ⟨"2021-07-27", 6, "20:00", "21:00"⟩] :=
  ⟨rfl, c2_window_filter.1 8 20
    [⟨"2021-07-27", 5, "08:00", "09:00"⟩, ⟨"2021-07-27", 6, "20:00", "21:00"⟩]
    [⟨"2021-07-27", 5, "08:00", "09:00"⟩] rfl⟩

/-- C6: the Window Filter is idempotent: applying the loc filtering stage
with the same window to the set it already produced returns that set
unchanged. -/
theorem c6_window_filter_idempotent (sh eh : Int) (rows out : List CourtSlot)
    (h : loc_filter sh eh rows = .ok out) :
    loc_filter sh eh out = .ok out := by
  have hout := loc_filter_ok_eq_filter sh eh rows out h
  subst hout
  exact loc_filter_all_keep sh eh _ (fun r hr => List.of_mem_filter hr)

/-- Concrete instance of C6: refiltering the filtered two-row set with
the same window returns it unchanged. -/
theorem c6_witness :
    loc_filter 9 18
      [⟨"2021-07-28", 3, "09:00", "10:00"⟩, ⟨"2021-07-28", 4, "07:00", "08:00"⟩] =
      .ok [⟨"2021-07-28", 3, "09:00", "10:00"⟩] ∧
    loc_filter 9 18 [⟨"2021-07-28", 3, "09:00", "10:00"⟩] =
      .ok [⟨"2021-07-28", 3, "09:00", "10:00"⟩] :=
  ⟨rfl, c6_window_filter_idempotent 9 18
    [⟨"2021-07-28", 3, "09:00", "10:00"⟩, ⟨"2021-07-28", 4, "07:00", "08:00"⟩]
    [⟨"2021-07-28", 3, "09:00", "10:00"⟩] rfl⟩

/-- Refutation of C10 as stated: the time string "8" does not begin with
two digit characters, yet filter_relevant_courts does not raise: x[:2] of
"8" is "8", int("8") converts fine, and the slot is returned in the
filtered set. -/
theorem c10_counterexample :
    filter_relevant_courts zNoBook [("5", ["8 - 9"])] =
      .ok [⟨"2021-07-27", 5, "8", "9"⟩] := rfl

/-- C10 (amended): filter_relevant_courts turns the first two characters
of each time string into a number with int(); whenever some row of the
built DataFrame has a start_time or end_time whose two-character fragment
is not a valid integer string (for example "8:00", whose fragment is
"8:"), the filter raises ValueError instead of returning a set.  Strings
shorter than two characters that are themselves numeric, such as "8", are
accepted. -/
theorem c10_hour_fragment_failure (z : ZhsConfig) (avail : ScrapedPage)
    (rows : List (String × String × String)) (slots : List CourtSlot) (r : CourtSlot)
    (h1 : construct_rows avail = .ok rows)
    (h2 : astype_courts z.date rows = .ok slots)
    (h3 : r ∈ slots)
    (h4 : hourInt r.start_time = none ∨ hourInt r.end_time = none) :
    filter_relevant_courts z avail = .error .valueError := by
  rw [filter_via_loc z avail rows slots h1 h2]
  exact loc_filter_bad_row z.start_hour z.end_hour slots r h3 h4

/-- Concrete instance of amended C10: the zero-padding-free time "8:00"
makes the filter raise ValueError. -/
theorem c10_witness :
    construct_rows [("5", ["8:00 - 09:00"])] = .ok [("5", "8:00", "09:00")] ∧
    astype_courts "2021-07-27" [("5", "8:00", "09:00")] =
      .ok [⟨"2021-07-27", 5, "8:00", "09:00"⟩] ∧
    (⟨"2021-07-27", 5, "8:00", "09:00"⟩ : CourtSlot) ∈
      ([⟨"2021-07-27", 5, "8:00", "09:00"⟩] : List CourtSlot) ∧
    hourInt "8:00" = none ∧
    filter_relevant_courts zNoBook [("5", ["8:00 - 09:00"])] = .error .valueError :=
  ⟨rfl, rfl, List.mem_singleton.mpr rfl, rfl,
    c10_hour_fragment_failure zNoBook [("5", ["8:00 - 09:00"])]
      [("5", "8:00", "09:00")] [⟨"2021-07-27", 5, "8:00", "09:00"⟩]
      ⟨"2021-07-27", 5, "8:00", "09:00"⟩ rfl rfl (List.mem_singleton.mpr rfl)
      (Or.inl rfl)⟩

/- ## Claim C4: Zhs.compose_message -/

/-- C4 concerns a code bug: whenever a booking occurred, booked_court is
a pandas DataFrame (run_court_search passes all_relevant_courts.sample(1)),
and the template guard if booked_court: then raises ValueError because
the truth value of a DataFrame is ambiguous.  So for every booking
request and every relevant set, compose_message raises instead of
returning the summary-plus-listing text the claim (and the function's own
docstring) describes. -/
theorem c4_compose_message_raises (z : ZhsConfig) (df relevant : List CourtSlot) :
    compose_message z (some df) relevant = .error .valueError := rfl

/- ## Claim C7: the static booking lookup tables -/

/-- C7: court 7 maps to pager entry 3 in COURT_PAGE_MAPPER and to Buchung
button ordinal 2 in MAP_COURT_TO_XPATH, and the produced driver script
for court 7 clicks the pager locator holding div[3] and the confirmation
locator holding td[2], exactly these two values. -/
theorem c7_court7_lookups_and_script :
    List.lookup 7 COURT_PAGE_MAPPER = some 3 ∧
    List.lookup 7 MAP_COURT_TO_XPATH = some 2 ∧
    ∀ (creds : Creds) (date start : String),
      book_tennis_court creds date 7 start =
        (loginActions creds date ++
          [UiAction.clickByXpath "//*[@id=\"pager-block\"]/div[3]/div[2]/a/strong",
           UiAction.clickById ("order_el_7_" ++ start),
           UiAction.clickByXpath
             "/html/body/div[5]/article/div/div[4]/div/table/tbody/tr/td[2]/form/div/input",
           UiAction.clickByXpath "/html/body/div[5]/article/div/form/div/input",
           UiAction.quit], .ok ()) :=
  ⟨rfl, rfl, fun _ _ _ => rfl⟩

/- ## Claim C3: error handling in the poll loop -/

/-- Refutation of C3 as stated: with a transport failure on page 2, the
round is not treated as an empty set and the loop does not retry on the
next tick — run_court_search propagates the exception after the single
attempted fetch, and the loop ends in a crashed state with no sleep
effect and no further round, even with plenty of fuel left. -/
theorem c3_counterexample :
    run_court_search zNoBook credsEx envCrash 0 =
      ([Effect.fetch (build_url zNoBook 2)], .error .fetchError) ∧
    crawl_zhs_fuel zNoBook credsEx (fun _ => envCrash) (fun _ => 0) 0 4 =
      ([Effect.fetch (build_url zNoBook 2)], .crashed .fetchError) :=
  ⟨rfl, rfl⟩

/-- C3 (amended): there is no try/except anywhere in run_court_search or
crawl_zhs, so a FetchError or ParseError raised while a page of a round
is fetched or scraped propagates out: the round returns the exception
instead of a result, no later page of the round is fetched, and the loop
terminates in a crashed state on that tick without sleeping or retrying. -/
theorem c3_errors_propagate (z : ZhsConfig) (creds : Creds)
    (envs : Nat → Nat → Except PyError ScrapedPage) (picks : Nat → Nat)
    (r fuel : Nat) (e : PyError) (h : envs r 2 = .error e) :
    run_court_search z creds (envs r) (picks r) =
      ([Effect.fetch (build_url z 2)], .error e) ∧
    crawl_zhs_fuel z creds envs picks r (fuel + 1) =
      ([Effect.fetch (build_url z 2)], .crashed e) := by
  have h1 : run_pages z (envs r) [2, 3, 4] =
      ([Effect.fetch (build_url z 2)], .error e) := by
    rw [run_pages, h]
  have h2 : run_court_search z creds (envs r) (picks r) =
      ([Effect.fetch (build_url z 2)], .error e) := by
    rw [run_court_search, h1]
  refine ⟨h2, ?_⟩
  rw [crawl_zhs_fuel, h2]

/-- Concrete instance of amended C3: a ParseError on page 2 of round 0
crashes the loop at once. -/
theorem c3_witness :
    (fun (_ : Nat) (_ : Nat) => (.error .parseError : Except PyError ScrapedPage)) 0 2 =
      .error .parseError ∧
    (run_court_search zNoBook credsEx
        ((fun (_ : Nat) (_ : Nat) => (.error .parseError : Except PyError ScrapedPage)) 0)
        ((fun _ => 0) 0) =
      ([Effect.fetch (build_url zNoBook 2)], .error .parseError) ∧
     crawl_zhs_fuel zNoBook credsEx
        (fun _ _ => (.error .parseError : Except PyError ScrapedPage)) (fun _ => 0) 0 (2 + 1) =
      ([Effect.fetch (build_url zNoBook 2)], .crashed .parseError)) :=
  ⟨rfl, c3_errors_propagate zNoBook credsEx
    (fun _ _ => (.error .parseError : Except PyError ScrapedPage)) (fun _ => 0) 0 2
    .parseError rfl⟩

/- ## Claim C8: no upfront validation in the Booking Orchestrator -/

/-- Effect discriminator: is this effect the sent email? -/
def isEmailE : Effect → Bool
  | .email _ => true
  | _ => false

/-- Every effect emitted by the page loop is a page fetch. -/
theorem run_pages_fetch_only (z : ZhsConfig) (env : Nat → Except PyError ScrapedPage) :
    ∀ pages, ∀ x ∈ (run_pages z env pages).1, ∃ u, x = Effect.fetch u := by
  intro pages
  induction pages with
  | nil => intro x hx; cases hx
  | cons p ps ih =>
    intro x hx
    rw [run_pages] at hx
    cases henv : env p with
    | error e => rw [henv] at hx; simp at hx; exact ⟨_, hx⟩
    | ok scraped =>
      rw [henv] at hx
      simp only at hx
      cases hft : fix_times scraped with
      | error e => rw [hft] at hx; simp at hx; exact ⟨_, hx⟩
      | ok avail =>
        rw [hft] at hx
        simp only at hx
        cases hfr : filter_relevant_courts z avail with
        | error e => rw [hfr] at hx; simp at hx; exact ⟨_, hx⟩
        | ok rel =>
          rw [hfr] at hx
          simp only at hx
          rcases hrp : run_pages z env ps with ⟨effs, res⟩
          rw [hrp] at hx
          cases res with
          | error e =>
            simp only [List.cons_append, List.nil_append] at hx
            rcases List.mem_cons.mp hx with hx | hx
            · exact ⟨_, hx⟩
            · exact ih x (by rw [hrp]; exact hx)
          | ok rest =>
            simp only [List.cons_append, List.nil_append] at hx
            rcases List.mem_cons.mp hx with hx | hx
            · exact ⟨_, hx⟩
            · exact ih x (by rw [hrp]; exact hx)

/-- A list of fetches followed by driver actions holds no email effect. -/
theorem all_not_email_of_fetch_ui (effs : List Effect) (acts : List UiAction)
    (h : ∀ x ∈ effs, ∃ u, x = Effect.fetch u) :
    ((effs ++ acts.map Effect.ui).all fun x => !isEmailE x) = true := by
  rw [List.all_eq_true]
  intro x hx
  rcases List.mem_append.mp hx with hx | hx
  · obtain ⟨u, rfl⟩ := h x hx; rfl
  · obtain ⟨a, _, rfl⟩ := List.mem_map.mp hx; rfl

/-- A list of fetch effects holds no email effect. -/
theorem all_not_email_of_fetch (effs : List Effect)
    (h : ∀ x ∈ effs, ∃ u, x = Effect.fetch u) :
    (effs.all fun x => !isEmailE x) = true := by
  rw [List.all_eq_true]
  intro x hx
  obtain ⟨u, rfl⟩ := h x hx
  rfl

/-- When run_court_search ends in an exception, the effects it performed
contain no email: the notification is never sent on a failed round. -/
theorem run_court_search_error_no_email (z : ZhsConfig) (creds : Creds)
    (env : Nat → Except PyError ScrapedPage) (pick : Nat) (e : PyError)
    (h : (run_court_search z creds env pick).2 = .error e) :
    ((run_court_search z creds env pick).1.all fun x => !isEmailE x) = true := by
  rcases hE : run_court_search z creds env pick with ⟨effsAll, resAll⟩
  rw [hE] at h
  simp only at h
  unfold run_court_search at hE
  split at hE
  · rename_i effs e1 heq
    injection hE with hEf hEr
    subst hEf
    have hfo := run_pages_fetch_only z env [2, 3, 4]
    rw [heq] at hfo
    exact all_not_email_of_fetch effs hfo
  · rename_i effs allRel heq
    have hfo := run_pages_fetch_only z env [2, 3, 4]
    rw [heq] at hfo
    split at hE
    · split at hE
      · simp only at hE
        split at hE
        · rename_i acts e2 heqB
          injection hE with hEf hEr
          subst hEf
          exact all_not_email_of_fetch_ui effs acts hfo
        · rename_i acts u heqB
          split at hE
          · rename_i e2 heqC
            injection hE with hEf hEr
            subst hEf
            exact all_not_email_of_fetch_ui effs acts hfo
          · rename_i msg heqC
            injection hE with hEf hEr
            subst hEr
            simp at h
      · split at hE
        · rename_i e2 heqC
          injection hE with hEf hEr
          subst hEf
          exact all_not_email_of_fetch effs hfo
        · rename_i msg heqC
          injection hE with hEf hEr
          subst hEr
          simp at h
    · injection hE with hEf hEr
      subst hEr
      simp at h

/-- Refutation of C8 as stated: court 18 is missing from both lookup
tables, yet the produced script has already performed the login and
consent actions before the KeyError fires (there is no upfront
validation), and the exception propagates out of run_court_search, so no
email effect is ever emitted: the relevant-slot listing is not delivered. -/
theorem c8_counterexample :
    book_tennis_court credsEx "2021-07-27" 18 "08:00" =
      (loginActions credsEx "2021-07-27", .error (.keyError 18)) ∧
    loginActions credsEx "2021-07-27" ≠ [] ∧
    run_court_search zBook credsEx env18 0 =
      ([Effect.fetch (build_url zBook 2), Effect.fetch (build_url zBook 3),
        Effect.fetch (build_url zBook 4)] ++
        (loginActions credsEx "2021-07-27").map Effect.ui,
       .error (.keyError 18)) ∧
    ((run_court_search zBook credsEx env18 0).1.all fun x => !isEmailE x) = true :=
  ⟨rfl, by simp [loginActions], rfl, rfl⟩

/-- C8 (amended): BookTennisCourt.book_tennis_court performs no upfront
validation of the court number: the login and consent actions always run
first, and a resourceId missing from COURT_PAGE_MAPPER raises KeyError
only when the pager locator is formatted, mid-script; the booking attempt
is abandoned there, and because the exception propagates out of
run_court_search, the round sends no notification at all (no email effect
is emitted on any failed round). -/
theorem c8_no_upfront_validation (creds : Creds) (d st : String) (c : Int)
    (h : List.lookup c COURT_PAGE_MAPPER = none) :
    book_tennis_court creds d c st = (loginActions creds d, .error (.keyError c)) ∧
    loginActions creds d ≠ [] ∧
    (∀ (z : ZhsConfig) (env : Nat → Except PyError ScrapedPage) (pick : Nat) (e : PyError),
      (run_court_search z creds env pick).2 = .error e →
      ((run_court_search z creds env pick).1.all fun x => !isEmailE x) = true) := by
  refine ⟨?_, by simp [loginActions], fun z env pick e he =>
    run_court_search_error_no_email z creds env pick e he⟩
  rw [book_tennis_court, h]

/-- Concrete instance of amended C8: court 1 is in neither table; its
booking script stops at the pager lookup after the login actions. -/
theorem c8_witness :
    List.lookup 1 COURT_PAGE_MAPPER = none ∧
    book_tennis_court credsEx "2021-07-28" 1 "10:00" =
      (loginActions credsEx "2021-07-28", .error (.keyError 1)) ∧
    loginActions credsEx "2021-07-28" ≠ [] :=
  ⟨rfl, (c8_no_upfront_validation credsEx "2021-07-28" "10:00" 1 rfl).1,
    (c8_no_upfront_validation credsEx "2021-07-28" "10:00" 1 rfl).2.1⟩

/- ## Claim C5: loop behaviour on empty and non-empty rounds -/

/-- A round whose page loop completes fetched exactly its pages, in
order, and did nothing else. -/
theorem run_pages_effects_ok (z : ZhsConfig) (env : Nat → Except PyError ScrapedPage) :
    ∀ (pages : List Nat) (l : List CourtSlot), (run_pages z env pages).2 = .ok l →
      (run_pages z env pages).1 = pages.map fun p => Effect.fetch (build_url z p) := by
  intro pages
  induction pages with
  | nil => intro l _; rfl
  | cons p ps ih =>
    intro l h
    rw [run_pages] at h ⊢
    cases henv : env p with
    | error e => rw [henv] at h; simp at h
    | ok scraped =>
      rw [henv] at h
      simp only at h ⊢
      cases hft : fix_times scraped with
      | error e => rw [hft] at h; simp at h
      | ok avail =>
        rw [hft] at h
        simp only at h ⊢
        cases hfr : filter_relevant_courts z avail with
        | error e => rw [hfr] at h; simp at h
        | ok rel =>
          rw [hfr] at h
          simp only at h ⊢
          rcases hrp : run_pages z env ps with ⟨effs, res⟩
          rw [hrp] at h
          cases res with
          | error e => simp at h
          | ok rest =>
            have hih := ih rest (by rw [hrp])
            rw [hrp] at hih
            simp only at h hih ⊢
            rw [List.map_cons, ← hih]
            rfl

/-- C5: for a round whose aggregate relevant set was computed and is
empty, run_court_search attempts no booking and sends no notification
(its only effects are the three page fetches) and returns the
keep-searching signal, after which crawl_zhs sleeps for the configured
interval and runs the next round; and the keep-searching signal is
returned exactly when the set is empty, so the loop leaves the searching
state precisely on a round with a non-empty relevant set (with
auto-booking on, the code then crashes inside compose_message, see C4,
and in no case does it keep searching after a non-empty round). -/
theorem c5_poll_loop (z : ZhsConfig) (creds : Creds)
    (envs : Nat → Nat → Except PyError ScrapedPage) (picks : Nat → Nat)
    (r fuel : Nat) (l : List CourtSlot)
    (h : round_relevant z (envs r) = .ok l) :
    ((run_court_search z creds (envs r) (picks r)).2 = .ok false ↔ l = []) ∧
    (l = [] →
      run_court_search z creds (envs r) (picks r) =
        ([2, 3, 4].map fun p => Effect.fetch (build_url z p), .ok false) ∧
      crawl_zhs_fuel z creds envs picks r (fuel + 1) =
        (([2, 3, 4].map fun p => Effect.fetch (build_url z p)) ++
          Effect.sleep z.interval :: (crawl_zhs_fuel z creds envs picks (r + 1) fuel).1,
         (crawl_zhs_fuel z creds envs picks (r + 1) fuel).2)) ∧
    (l ≠ [] →
      (crawl_zhs_fuel z creds envs picks r (fuel + 1)).1 =
        (run_court_search z creds (envs r) (picks r)).1 ∧
      ((crawl_zhs_fuel z creds envs picks r (fuel + 1)).2 = .found ∨
        ∃ e, (crawl_zhs_fuel z creds envs picks r (fuel + 1)).2 = .crashed e)) := by
  unfold round_relevant at h
  rcases hrp : run_pages z (envs r) [2, 3, 4] with ⟨effs, res⟩
  rw [hrp] at h
  simp only at h
  subst h
  have heffs : effs = [2, 3, 4].map fun p => Effect.fetch (build_url z p) := by
    have h2 := run_pages_effects_ok z (envs r) [2, 3, 4] l (by rw [hrp])
    rw [hrp] at h2
    exact h2
  by_cases hl : l = []
  · subst hl
    have hrun : run_court_search z creds (envs r) (picks r) = (effs, .ok false) := by
      rw [run_court_search, hrp]
      simp
    refine ⟨by rw [hrun]; simp, fun _ => ⟨by rw [hrun, heffs], ?_⟩,
      fun hne => absurd rfl hne⟩
    rw [crawl_zhs_fuel, hrun]
    rcases hcr : crawl_zhs_fuel z creds envs picks (r + 1) fuel with ⟨effs2, out⟩
    simp [heffs]
  · have hlen : l.length ≠ 0 := by
      intro h0
      exact hl (List.length_eq_zero.mp h0)
    have hnotfalse : (run_court_search z creds (envs r) (picks r)).2 ≠ .ok false := by
      intro hfalse
      rw [run_court_search, hrp] at hfalse
      simp only at hfalse
      rw [if_pos hlen] at hfalse
      split at hfalse
      · split at hfalse
        · simp at hfalse
        · split at hfalse
          · simp at hfalse
          · simp at hfalse
      · split at hfalse
        · simp at hfalse
        · simp at hfalse
    refine ⟨⟨fun hfalse => absurd hfalse hnotfalse, fun hempty => absurd hempty hl⟩,
      fun hempty => absurd hempty hl, fun _ => ?_⟩
    rw [crawl_zhs_fuel]
    rcases hE : run_court_search z creds (envs r) (picks r) with ⟨effsAll, resAll⟩
    cases resAll with
    | error e => exact ⟨rfl, Or.inr ⟨e, rfl⟩⟩
    | ok b =>
      cases b with
      | false => exact absurd (by rw [hE]) hnotfalse
      | true => exact ⟨rfl, Or.inl rfl⟩

/-- Concrete instance of C5: an all-empty environment gives an empty
round, the keep-searching signal, fetch-only effects and a sleep before
the next round. -/
theorem c5_witness :
    round_relevant zNoBook ((fun (_ : Nat) (_ : Nat) => (.ok [] : Except PyError ScrapedPage)) 0) =
      .ok [] ∧
    (((run_court_search zNoBook credsEx
          ((fun (_ : Nat) (_ : Nat) => (.ok [] : Except PyError ScrapedPage)) 0)
          ((fun _ => 0) 0)).2 = .ok false ↔ ([] : List CourtSlot) = []) ∧
     (([] : List CourtSlot) = [] →
       run_court_search zNoBook credsEx
           ((fun (_ : Nat) (_ : Nat) => (.ok [] : Except PyError ScrapedPage)) 0)
           ((fun _ => 0) 0) =
         ([2, 3, 4].map fun p => Effect.fetch (build_url zNoBook p), .ok false) ∧
       crawl_zhs_fuel zNoBook credsEx (fun _ _ => (.ok [] : Except PyError ScrapedPage))
           (fun _ => 0) 0 (1 + 1) =
         (([2, 3, 4].map fun p => Effect.fetch (build_url zNoBook p)) ++
           Effect.sleep zNoBook.interval ::
             (crawl_zhs_fuel zNoBook credsEx (fun _ _ => (.ok [] : Except PyError ScrapedPage))
               (fun _ => 0) (0 + 1) 1).1,
          (crawl_zhs_fuel zNoBook credsEx (fun _ _ => (.ok [] : Except PyError ScrapedPage))
            (fun _ => 0) (0 + 1) 1).2)) ∧
     (([] : List CourtSlot) ≠ [] →
       (crawl_zhs_fuel zNoBook credsEx (fun _ _ => (.ok [] : Except PyError ScrapedPage))
           (fun _ => 0) 0 (1 + 1)).1 =
         (run_court_search zNoBook credsEx
           ((fun (_ : Nat) (_ : Nat) => (.ok [] : Except PyError ScrapedPage)) 0)
           ((fun _ => 0) 0)).1 ∧
       ((crawl_zhs_fuel zNoBook credsEx (fun _ _ => (.ok [] : Except PyError ScrapedPage))
           (fun _ => 0) 0 (1 + 1)).2 = .found ∨
         ∃ e, (crawl_zhs_fuel zNoBook credsEx (fun _ _ => (.ok [] : Except PyError ScrapedPage))
           (fun _ => 0) 0 (1 + 1)).2 = .crashed e))) :=
  ⟨rfl, c5_poll_loop zNoBook credsEx (fun _ _ => (.ok [] : Except PyError ScrapedPage))
    (fun _ => 0) 0 1 [] rfl⟩

/- ## Claim C9: the URL builder and the fixed page range -/

/-- C9: build_url returns exactly the fixed base endpoint (with
action=showReservations and type_id=1) followed by the URL-encoded date
and page query parameters, and a round whose page loop completed fetched
exactly the pages 2, 3 and 4, in that order. -/
theorem c9_build_url_and_pages (z : ZhsConfig) (page : Nat)
    (env : Nat → Except PyError ScrapedPage) (l : List CourtSlot)
    (h : round_relevant z env = .ok l) :
    build_url z page =
      BASE_URL ++ "date=" ++ quote_plus z.date ++ "&page=" ++ quote_plus (Nat.repr page) ∧
    (run_pages z env [2, 3, 4]).1 =
      [Effect.fetch (build_url z 2), Effect.fetch (build_url z 3),
       Effect.fetch (build_url z 4)] := by
  constructor
  · have hd : quote_plus "date" = "date" := rfl
    have hp : quote_plus "page" = "page" := rfl
    apply String.ext
    rw [build_url, urlencode]
    simp only [List.map_cons, List.map_nil]
    rw [show String.intercalate "&"
        [quote_plus "date" ++ "=" ++ quote_plus z.date,
         quote_plus "page" ++ "=" ++ quote_plus (Nat.repr page)] =
        quote_plus "date" ++ "=" ++ quote_plus z.date ++ "&" ++
          (quote_plus "page" ++ "=" ++ quote_plus (Nat.repr page)) from rfl]
    rw [hd, hp]
    simp [String.data_append, List.append_assoc]
  · have h2 := run_pages_effects_ok z env [2, 3, 4] l h
    rw [h2]
    rfl

/-- Concrete instance of C9: the URL of page 2 for a concrete date, and
the three fetches of a completed round, in page order. -/
theorem c9_witness :
    round_relevant zNoBook envEmpty = .ok [] ∧
    (build_url zNoBook 2 =
      BASE_URL ++ "date=" ++ quote_plus zNoBook.date ++ "&page=" ++ quote_plus (Nat.repr 2) ∧
     (run_pages zNoBook envEmpty [2, 3, 4]).1 =
      [Effect.fetch (build_url zNoBook 2), Effect.fetch (build_url zNoBook 3),
       Effect.fetch (build_url zNoBook 4)]) :=
  ⟨rfl, c9_build_url_and_pages zNoBook 2 envEmpty [] rfl⟩
